import Mathlib

/-
Verification of qt/aqt/theme.py (ThemeManager).

The module is embedded shallowly:
  * the global color table (aqt.colors.colors, a Python dict from string keys
    to color strings) is modelled as an association list, with dict.get as
    first-match lookup;
  * QIcon handles are modelled as records carrying a fresh allocation id, so
    structural equality of model icons coincides with Python object identity:
    every QIcon(...) construction allocates a fresh id;
  * the manager state (night_mode flag, _icon_cache, and the color table the
    module reads) is an explicit record threaded through the operations;
  * raising an exception is modelled as Except.error carrying the arguments
    of the raised Exception.
-/

namespace Theme

/-- Python dict lookup `d.get(k)` over an association-list model of the dict:
first binding for the key wins. -/
def dictGet {α : Type} : List (String × α) → String → Option α
  | [], _ => none
  | (k, v) :: rest, key => if k = key then some v else dictGet rest key

/-- What a model icon was built from: `QIcon(path)` for the plain load, or the
night-mode wrap `QIcon(QPixmap(img))` of the pixel-inverted image of the base
icon for `path`. -/
inductive IconData : Type
  | ofPath (path : String)
  | invertedOf (path : String)
  deriving DecidableEq, Repr

/-- A QIcon handle. `id` is a fresh allocation number, making model equality
stand for Python object identity. -/
structure Icon where
  id : Nat
  data : IconData
  deriving DecidableEq, Repr

/-- The ThemeManager state: the `night_mode` flag and `_icon_cache` attribute,
plus the external color table the module reads (never writes), and the
allocation counter backing icon identity. -/
structure TMState where
  night_mode : Bool
  icon_cache : List (String × Icon)
  nextId : Nat
  colors : List (String × String)
  deriving DecidableEq, Repr

/-- A freshly constructed ThemeManager: the class attributes are
`night_mode = True` and `_icon_cache = {}` (theme.py lines 15-17). -/
def ThemeManager.initial (colors : List (String × String)) : TMState :=
  { night_mode := true, icon_cache := [], nextId := 0, colors := colors }

/-- `ThemeManager.icon_from_resources`: return the cached icon when present;
otherwise build `QIcon(path)`, and when night mode is active additionally
build the inverted wrap (a second allocation), then insert into the cache
via `setdefault` (the key is absent here, so it inserts) and return it. -/
def icon_from_resources (s : TMState) (path : String) : Icon × TMState :=
  match dictGet s.icon_cache path with
  | some icon => (icon, s)
  | none =>
    if s.night_mode then
      let icon : Icon := ⟨s.nextId + 1, IconData.invertedOf path⟩
      (icon, { s with icon_cache := (path, icon) :: s.icon_cache,
                      nextId := s.nextId + 2 })
    else
      let icon : Icon := ⟨s.nextId, IconData.ofPath path⟩
      (icon, { s with icon_cache := (path, icon) :: s.icon_cache,
                      nextId := s.nextId + 1 })

/-- A caller flipping the global `night_mode` attribute (any caller may). -/
def set_night_mode (s : TMState) (b : Bool) : TMState :=
  { s with night_mode := b }

/-- Operations that touch manager state between two icon fetches. -/
inductive Op : Type
  | setMode (b : Bool)
  | getIcon (path : String)

/-- Run a sequence of operations against the manager state. -/
def run (s : TMState) : List Op → TMState
  | [] => s
  | Op.setMode b :: ops => run (set_night_mode s b) ops
  | Op.getIcon p :: ops => run (icon_from_resources s p).2 ops

/-- The mode prefix: `self.night_mode and "night-" or "day-"` — the Python
and/or idiom; since "night-" is truthy this is if-then-else. -/
def modePrefix (night : Bool) : String :=
  if night then "night-" else "day-"

/-- `ThemeManager.str_color`, as a function of the data it reads: prepend the
mode prefix, look up the composite key, raise
`Exception("no such color:", key)` when absent, else return the stored
value. -/
def str_color_fn (colors : List (String × String)) (night : Bool)
    (key : String) : Except (String × String) String :=
  match dictGet colors (modePrefix night ++ key) with
  | none => Except.error ("no such color:", key)
  | some c => Except.ok c

/-- The method form of `str_color`: reads the state, mutates nothing. -/
def str_color (s : TMState) (key : String) :
    Except (String × String) String × TMState :=
  (str_color_fn s.colors s.night_mode key, s)

/-- A QColor value: built from a color name string (with an alpha channel,
255 on construction), or the fixed `Qt.red` global color. Color-name
resolution is not modelled, so the two constructors stay distinct. -/
inductive QColor : Type
  | fromName (name : String) (alpha : Nat)
  | qtRed
  deriving DecidableEq, Repr

/-- `QColor.setAlpha` (only ever called on name-built colors in the source). -/
def QColor.setAlpha : QColor → Nat → QColor
  | QColor.fromName n _, a => QColor.fromName n a
  | QColor.qtRed, _ => QColor.qtRed

/-- `ThemeManager.qcolor`: `QColor(self.str_color(key))`. -/
def qcolor_fn (colors : List (String × String)) (night : Bool)
    (key : String) : Except (String × String) QColor :=
  (str_color_fn colors night key).map (fun c => QColor.fromName c 255)

/-- The method form of `qcolor`: reads the state, mutates nothing. -/
def qcolor (s : TMState) (key : String) :
    Except (String × String) QColor × TMState :=
  (qcolor_fn s.colors s.night_mode key, s)

/-- `ThemeManager.body_class`: a platform tag (isWin wins over isMac, else
isLin) optionally followed by nightMode, joined with single spaces. -/
def body_class (isWin isMac night_mode : Bool) : String :=
  let classes : List String :=
    (if isWin then ["isWin"] else if isMac then ["isMac"] else ["isLin"]) ++
    (if night_mode then ["nightMode"] else [])
  String.intercalate " " classes

/-- `ThemeManager.body_classes_for_card_ord`: the f-string
`"card card\x7bcard_ord+1\x7d \x7bself.body_class()\x7d"`. -/
def body_classes_for_card_ord (isWin isMac night_mode : Bool)
    (card_ord : Nat) : String :=
  "card card" ++ toString (card_ord + 1) ++ " " ++
    body_class isWin isMac night_mode

/-- Inputs `_apply_style` reads: the isWin flag, `platform.release()`, and
the night_mode flag. -/
structure StyleConfig where
  isWin : Bool
  platformRelease : String
  night_mode : Bool

/-- The menubar bottom-border fragment (theme.py lines 78-83), byte-exact. -/
def menubarFix : String :=
  "\nQMenuBar \x7b\n  border-bottom: 1px solid #aaa;\n  background: white;\n\x7d\n"

/-- The QTreeWidget background fragment (lines 86-90), byte-exact including
the trailing indentation inside the Python triple-quoted string. -/
def treeWidgetFix : String :=
  "\nQTreeWidget \x7b\n  background: #eee;\n\x7d\n            "

/-- The night-mode tooltip/groupbox fragment (lines 93-101), byte-exact
including trailing spaces. -/
def nightFix : String :=
  "\nQToolTip \x7b\n  border: 0;\n\x7d\n\nQGroupBox \x7b\n  padding-top: 0px;\n\x7d              \n            "

/-- The stylesheet buffer `_apply_style` accumulates before the hook: the two
Windows-10 day-mode fragments (appended under one condition in the source),
then the night-mode fragment. -/
def style_buf (cfg : StyleConfig) : String :=
  let buf := ""
  let buf :=
    if cfg.isWin && cfg.platformRelease == "10" && !cfg.night_mode then
      buf ++ menubarFix ++ treeWidgetFix
    else buf
  let buf := if cfg.night_mode then buf ++ nightFix else buf
  buf

/-- Invoke the extension hook `gui_hooks.style_did_init`, recording the
argument of each invocation in a trace. -/
def call_hook (hook : String → String) (arg : String)
    (trace : List String) : String × List String :=
  (hook arg, trace ++ [arg])

/-- `ThemeManager._apply_style`: build the buffer, pass it through the
extension hook (the single hook invocation in the body), and install the
hook's return value via `app.setStyleSheet`. Returns the installed
stylesheet and the trace of hook invocations. -/
def _apply_style (cfg : StyleConfig) (hook : String → String) :
    String × List String :=
  let buf := style_buf cfg
  let (buf, trace) := call_hook hook buf []
  (buf, trace)

/-- The QPalette color roles the module assigns. -/
inductive PaletteRole : Type
  | WindowText | ToolTipText | Text | ButtonText
  | HighlightedText | Highlight
  | Window | AlternateBase | Button
  | Base | ToolTipBase
  | Link | BrightText
  deriving DecidableEq, Repr

/-- Which color group a `setColor` call targets: the two-argument form
applies to all groups; the three-argument form here always targets
`QPalette.Disabled`. -/
inductive ColorGroup : Type
  | All
  | Disabled
  deriving DecidableEq, Repr

/-- One `palette.setColor(...)` call: group, role, color. -/
structure PaletteAssignment where
  group : ColorGroup
  role : PaletteRole
  color : QColor
  deriving DecidableEq, Repr

/-- What `_apply_palette` does to the application object: the style it
installs (none when it returns early) and the palette assignments it makes
before `app.setPalette` (none when it returns early). -/
structure ApplyPaletteResult where
  styleSet : Option String
  paletteSet : Option (List PaletteAssignment)
  deriving DecidableEq, Repr

/-- `ThemeManager._apply_palette`: in day mode return before touching the
application; in night mode install the "fusion" style and set the palette
colors in source order (a missing color key propagates the str_color
error). -/
def _apply_palette (colors : List (String × String)) (night : Bool) :
    Except (String × String) ApplyPaletteResult :=
  if !night then Except.ok ⟨none, none⟩
  else do
    let text_fg ← qcolor_fn colors night "text-fg"
    let hlbg0 ← qcolor_fn colors night "highlight-bg"
    let hlbg := hlbg0.setAlpha 64
    let highlight_fg ← qcolor_fn colors night "highlight-fg"
    let window_bg ← qcolor_fn colors night "window-bg"
    let frame_bg ← qcolor_fn colors night "frame-bg"
    let disabled_color ← qcolor_fn colors night "disabled"
    let link ← qcolor_fn colors night "link"
    Except.ok ⟨some "fusion", some [
      ⟨ColorGroup.All, PaletteRole.WindowText, text_fg⟩,
      ⟨ColorGroup.All, PaletteRole.ToolTipText, text_fg⟩,
      ⟨ColorGroup.All, PaletteRole.Text, text_fg⟩,
      ⟨ColorGroup.All, PaletteRole.ButtonText, text_fg⟩,
      ⟨ColorGroup.All, PaletteRole.HighlightedText, highlight_fg⟩,
      ⟨ColorGroup.All, PaletteRole.Highlight, hlbg⟩,
      ⟨ColorGroup.All, PaletteRole.Window, window_bg⟩,
      ⟨ColorGroup.All, PaletteRole.AlternateBase, window_bg⟩,
      ⟨ColorGroup.All, PaletteRole.Button, window_bg⟩,
      ⟨ColorGroup.All, PaletteRole.Base, frame_bg⟩,
      ⟨ColorGroup.All, PaletteRole.ToolTipBase, frame_bg⟩,
      ⟨ColorGroup.Disabled, PaletteRole.Text, disabled_color⟩,
      ⟨ColorGroup.Disabled, PaletteRole.ButtonText, disabled_color⟩,
      ⟨ColorGroup.Disabled, PaletteRole.HighlightedText, disabled_color⟩,
      ⟨ColorGroup.All, PaletteRole.Link, link⟩,
      ⟨ColorGroup.All, PaletteRole.BrightText, QColor.qtRed⟩]⟩

/-- Concrete table used by witnesses. -/
def witnessColors : List (String × String) :=
  [("night-text-fg", "#fcfcfc"), ("day-text-fg", "#020202")]

/-- State after caching the icon for path "a" in night mode. -/
def witnessIconState : TMState :=
  (icon_from_resources (ThemeManager.initial witnessColors) "a").2

/-- The handle cached for "a": the inverted night-mode icon. -/
def witnessIcon : Icon :=
  (icon_from_resources (ThemeManager.initial witnessColors) "a").1

/-- A complete night-mode color table, for palette witnesses. -/
def fullNightColors : List (String × String) :=
  [("night-text-fg", "#d7d7d7"),
   ("night-highlight-bg", "#4a90d9"),
   ("night-highlight-fg", "#1d1d1d"),
   ("night-window-bg", "#2f2f31"),
   ("night-frame-bg", "#3a3a3a"),
   ("night-disabled", "#777777"),
   ("night-link", "#77ccff")]

/-- The palette assignment list produced on the full night table. -/
def fullNightAssignments : List PaletteAssignment :=
  match _apply_palette fullNightColors true with
  | Except.ok r => r.paletteSet.getD []
  | Except.error _ => []

end Theme

namespace Theme

/-- C1: for every semantic color name whose mode-prefixed key
("night-" when night mode is active, "day-" otherwise) is present in the
color table, str_color returns exactly the stored value, in both modes. -/
theorem str_color_hit (s : TMState) (k v : String)
    (h : dictGet s.colors (modePrefix s.night_mode ++ k) = some v) :
    (str_color s k).1 = Except.ok v := by
  simp [str_color, str_color_fn, h]

/-- Witness for C1: night mode, key "text-fg" stored as "#fcfcfc". -/
theorem str_color_hit_witness :
    (str_color (ThemeManager.initial witnessColors) "text-fg").1 =
      Except.ok "#fcfcfc" :=
  str_color_hit (ThemeManager.initial witnessColors) "text-fg" "#fcfcfc"
    (by decide)

/-- C2: when the mode-prefixed key is absent from the color table,
str_color raises an error carrying the offending (unprefixed) key, in both
modes, and qcolor propagates that same error to its caller uncaught. -/
theorem str_color_miss (s : TMState) (k : String)
    (h : dictGet s.colors (modePrefix s.night_mode ++ k) = none) :
    (str_color s k).1 = Except.error ("no such color:", k) ∧
    (qcolor s k).1 = Except.error ("no such color:", k) := by
  constructor
  · simp [str_color, str_color_fn, h]
  · simp [qcolor, qcolor_fn, str_color_fn, h, Except.map]

/-- Witness for C2: the key "frame-bg" is absent from the witness table. -/
theorem str_color_miss_witness :
    (str_color (ThemeManager.initial witnessColors) "frame-bg").1 =
      Except.error ("no such color:", "frame-bg") ∧
    (qcolor (ThemeManager.initial witnessColors) "frame-bg").1 =
      Except.error ("no such color:", "frame-bg") :=
  str_color_miss (ThemeManager.initial witnessColors) "frame-bg" (by decide)

/-- C3 counterexample: the claim says a freshly constructed ThemeManager has
night_mode = false, but the class attribute is `night_mode = True`
(theme.py line 15). -/
theorem initial_night_mode_not_false :
    ¬ (ThemeManager.initial []).night_mode = false := by decide

/-- C3 (amended): the theme mode flag's initial value is night mode: a
freshly constructed ThemeManager has night_mode equal to true. -/
theorem initial_night_mode (colors : List (String × String)) :
    (ThemeManager.initial colors).night_mode = true := rfl

/-- C4: icon lookup is idempotent per path: a second consecutive call with
the same path (mode unchanged in between, since the first call never changes
it) returns the identical handle and leaves the state untouched, and that
handle is the one the first call stored in the cache. -/
theorem icon_idempotent (s : TMState) (p : String) :
    icon_from_resources (icon_from_resources s p).2 p = icon_from_resources s p ∧
    dictGet (icon_from_resources s p).2.icon_cache p =
      some (icon_from_resources s p).1 := by
  cases hc : dictGet s.icon_cache p with
  | some i => simp [icon_from_resources, hc]
  | none =>
    by_cases hn : s.night_mode <;>
      simp [icon_from_resources, hc, hn, dictGet]

/-- An icon fetch never removes or replaces an existing cache entry. -/
theorem icon_cache_preserved (s : TMState) (p q : String) (i : Icon)
    (h : dictGet s.icon_cache q = some i) :
    dictGet (icon_from_resources s p).2.icon_cache q = some i := by
  cases hc : dictGet s.icon_cache p with
  | some j => simpa [icon_from_resources, hc] using h
  | none =>
    have hpq : ¬ p = q := by
      intro e
      rw [e] at hc
      rw [hc] at h
      exact Option.noConfusion h
    by_cases hn : s.night_mode <;>
      simp [icon_from_resources, hc, hn, dictGet, hpq, h]

/-- Any sequence of mode flips and icon fetches preserves cache entries. -/
theorem run_cache_preserved (ops : List Op) (s : TMState) (q : String)
    (i : Icon) (h : dictGet s.icon_cache q = some i) :
    dictGet (run s ops).icon_cache q = some i := by
  induction ops generalizing s with
  | nil => exact h
  | cons op rest ih =>
    cases op with
    | setMode b => exact ih (set_night_mode s b) h
    | getIcon p => exact ih _ (icon_cache_preserved s p q i h)

/-- C9: the icon cache is never evicted or invalidated: once a handle is
stored for a path, after any later sequence of operations (mode flips
included) the entry is still cached, and a later fetch of that path returns
exactly that stored handle, stale or not. -/
theorem icon_cache_never_invalidated (s : TMState) (p : String) (i : Icon)
    (h : dictGet s.icon_cache p = some i) (ops : List Op) :
    dictGet (run s ops).icon_cache p = some i ∧
    (icon_from_resources (run s ops) p).1 = i := by
  have hc := run_cache_preserved ops s p i h
  exact ⟨hc, by simp [icon_from_resources, hc]⟩

/-- Witness for C9: after flipping to day mode and fetching another icon, the
fetch of "a" still returns the stale inverted handle. -/
theorem icon_cache_never_invalidated_witness :
    dictGet (run witnessIconState [Op.setMode false, Op.getIcon "b"]).icon_cache
        "a" = some witnessIcon ∧
    (icon_from_resources (run witnessIconState
        [Op.setMode false, Op.getIcon "b"]) "a").1 = witnessIcon :=
  icon_cache_never_invalidated witnessIconState "a" witnessIcon (by decide)
    [Op.setMode false, Op.getIcon "b"]

/-- C10: color lookup fails atomically: when str_color (and hence qcolor)
raises on an unknown key, it raises the identifying error and leaves all
manager state unchanged — the night_mode flag, the icon cache, and the color
table are exactly as before the call (the method bodies perform no
mutation). -/
theorem str_color_atomic (s : TMState) (k : String)
    (h : dictGet s.colors (modePrefix s.night_mode ++ k) = none) :
    (str_color s k).1 = Except.error ("no such color:", k) ∧
    (str_color s k).2.night_mode = s.night_mode ∧
    (str_color s k).2.icon_cache = s.icon_cache ∧
    (str_color s k).2.colors = s.colors ∧
    (qcolor s k).2 = s := by
  refine ⟨?_, rfl, rfl, rfl, rfl⟩
  simp [str_color, str_color_fn, h]

/-- Witness for C10: the key "link" is absent from the witness table. -/
theorem str_color_atomic_witness :
    (str_color (ThemeManager.initial witnessColors) "link").1 =
      Except.error ("no such color:", "link") ∧
    (str_color (ThemeManager.initial witnessColors) "link").2.night_mode =
      (ThemeManager.initial witnessColors).night_mode ∧
    (str_color (ThemeManager.initial witnessColors) "link").2.icon_cache =
      (ThemeManager.initial witnessColors).icon_cache ∧
    (str_color (ThemeManager.initial witnessColors) "link").2.colors =
      (ThemeManager.initial witnessColors).colors ∧
    (qcolor (ThemeManager.initial witnessColors) "link").2 =
      ThemeManager.initial witnessColors :=
  str_color_atomic (ThemeManager.initial witnessColors) "link" (by decide)

/-- C7: for every platform and both modes, the body class string is exactly
one platform tag (isWin, isMac or isLin) first, then nightMode iff night
mode is active, single-space separated and nothing else; exactly one of the
three platform tags occurs among the classes. -/
theorem body_class_platform_tag (w m n : Bool) :
    ∃ t, t ∈ ["isWin", "isMac", "isLin"] ∧
      body_class w m n =
        String.intercalate " " (t :: (if n then ["nightMode"] else [])) ∧
      ((t :: (if n then ["nightMode"] else [])).filter
        (fun c => ["isWin", "isMac", "isLin"].contains c)).length = 1 := by
  cases w <;> cases m <;> cases n
  · exact ⟨"isLin", by decide, by decide, by decide⟩
  · exact ⟨"isLin", by decide, by decide, by decide⟩
  · exact ⟨"isMac", by decide, by decide, by decide⟩
  · exact ⟨"isMac", by decide, by decide, by decide⟩
  · exact ⟨"isWin", by decide, by decide, by decide⟩
  · exact ⟨"isWin", by decide, by decide, by decide⟩
  · exact ⟨"isWin", by decide, by decide, by decide⟩
  · exact ⟨"isWin", by decide, by decide, by decide⟩

/-- C8: with night mode active on Linux (neither Windows nor Mac),
body_classes_for_card_ord 2 is exactly "card card3 isLin nightMode". -/
theorem body_classes_for_card_ord_card3 :
    body_classes_for_card_ord false false true 2 =
      "card card3 isLin nightMode" := by decide

/-- C6: stylesheet application invokes the extension hook exactly once,
passing it the fully concatenated buffer of the conditional fragments, and
the installed stylesheet is exactly the hook's return value. -/
theorem apply_style_hook_once (cfg : StyleConfig) (hook : String → String) :
    ( _apply_style cfg hook).2 = [style_buf cfg] ∧
    ( _apply_style cfg hook).1 = hook (style_buf cfg) ∧
    style_buf cfg =
      (if cfg.isWin && cfg.platformRelease == "10" && !cfg.night_mode then
        menubarFix ++ treeWidgetFix
      else "") ++
      (if cfg.night_mode then nightFix else "") := by
  refine ⟨rfl, rfl, ?_⟩
  by_cases hn : cfg.night_mode <;>
    by_cases hw : cfg.isWin && cfg.platformRelease == "10" <;>
      simp [style_buf, hn, hw]

/-- C5 counterexample: on a complete night color table, night-mode palette
application assigns 12 distinct table-derived palette roles (13 counting the
fixed BrightText red), not the ten the claim states. -/
theorem apply_palette_role_count_not_ten :
    ((fullNightAssignments.filter
        (fun a => a.color != QColor.qtRed)).map
        (fun a => a.role)).dedup.length = 12 ∧
    (fullNightAssignments.map (fun a => a.role)).dedup.length = 13 ∧
    (12 : Nat) ≠ 10 ∧ (13 : Nat) ≠ 10 := by decide

/-- C5 (amended): palette application is a no-op in day mode (it returns
before touching the application's style or palette); in night mode it
installs the fusion style and makes sixteen group-role color assignments —
twelve distinct table-derived roles, the disabled group re-using three of
them — plus the fixed BrightText bright/error color (red), which is
independent of the table. -/
theorem apply_palette_day_noop_night_roles (colors : List (String × String))
    (v₁ v₂ v₃ v₄ v₅ v₆ v₇ : String)
    (h₁ : dictGet colors "night-text-fg" = some v₁)
    (h₂ : dictGet colors "night-highlight-bg" = some v₂)
    (h₃ : dictGet colors "night-highlight-fg" = some v₃)
    (h₄ : dictGet colors "night-window-bg" = some v₄)
    (h₅ : dictGet colors "night-frame-bg" = some v₅)
    (h₆ : dictGet colors "night-disabled" = some v₆)
    (h₇ : dictGet colors "night-link" = some v₇) :
    _apply_palette colors false = Except.ok ⟨none, none⟩ ∧
    _apply_palette colors true = Except.ok ⟨some "fusion", some [
      ⟨ColorGroup.All, PaletteRole.WindowText, QColor.fromName v₁ 255⟩,
      ⟨ColorGroup.All, PaletteRole.ToolTipText, QColor.fromName v₁ 255⟩,
      ⟨ColorGroup.All, PaletteRole.Text, QColor.fromName v₁ 255⟩,
      ⟨ColorGroup.All, PaletteRole.ButtonText, QColor.fromName v₁ 255⟩,
      ⟨ColorGroup.All, PaletteRole.HighlightedText, QColor.fromName v₃ 255⟩,
      ⟨ColorGroup.All, PaletteRole.Highlight, QColor.fromName v₂ 64⟩,
      ⟨ColorGroup.All, PaletteRole.Window, QColor.fromName v₄ 255⟩,
      ⟨ColorGroup.All, PaletteRole.AlternateBase, QColor.fromName v₄ 255⟩,
      ⟨ColorGroup.All, PaletteRole.Button, QColor.fromName v₄ 255⟩,
      ⟨ColorGroup.All, PaletteRole.Base, QColor.fromName v₅ 255⟩,
      ⟨ColorGroup.All, PaletteRole.ToolTipBase, QColor.fromName v₅ 255⟩,
      ⟨ColorGroup.Disabled, PaletteRole.Text, QColor.fromName v₆ 255⟩,
      ⟨ColorGroup.Disabled, PaletteRole.ButtonText, QColor.fromName v₆ 255⟩,
      ⟨ColorGroup.Disabled, PaletteRole.HighlightedText,
        QColor.fromName v₆ 255⟩,
      ⟨ColorGroup.All, PaletteRole.Link, QColor.fromName v₇ 255⟩,
      ⟨ColorGroup.All, PaletteRole.BrightText, QColor.qtRed⟩]⟩ := by
  constructor
  · rfl
  · simp [_apply_palette, qcolor_fn, str_color_fn, modePrefix,
      h₁, h₂, h₃, h₄, h₅, h₆, h₇, Except.map, QColor.setAlpha]
    rfl

/-- Witness for C5 at the full night table. -/
theorem apply_palette_day_noop_night_roles_witness :
    _apply_palette fullNightColors false = Except.ok ⟨none, none⟩ ∧
    _apply_palette fullNightColors true = Except.ok ⟨some "fusion", some [
      ⟨ColorGroup.All, PaletteRole.WindowText,
        QColor.fromName "#d7d7d7" 255⟩,
      ⟨ColorGroup.All, PaletteRole.ToolTipText,
        QColor.fromName "#d7d7d7" 255⟩,
      ⟨ColorGroup.All, PaletteRole.Text, QColor.fromName "#d7d7d7" 255⟩,
      ⟨ColorGroup.All, PaletteRole.ButtonText,
        QColor.fromName "#d7d7d7" 255⟩,
      ⟨ColorGroup.All, PaletteRole.HighlightedText,
        QColor.fromName "#1d1d1d" 255⟩,
      ⟨ColorGroup.All, PaletteRole.Highlight, QColor.fromName "#4a90d9" 64⟩,
      ⟨ColorGroup.All, PaletteRole.Window, QColor.fromName "#2f2f31" 255⟩,
      ⟨ColorGroup.All, PaletteRole.AlternateBase,
        QColor.fromName "#2f2f31" 255⟩,
      ⟨ColorGroup.All, PaletteRole.Button, QColor.fromName "#2f2f31" 255⟩,
      ⟨ColorGroup.All, PaletteRole.Base, QColor.fromName "#3a3a3a" 255⟩,
      ⟨ColorGroup.All, PaletteRole.ToolTipBase,
        QColor.fromName "#3a3a3a" 255⟩,
      ⟨ColorGroup.Disabled, PaletteRole.Text, QColor.fromName "#777777" 255⟩,
      ⟨ColorGroup.Disabled, PaletteRole.ButtonText,
        QColor.fromName "#777777" 255⟩,
      ⟨ColorGroup.Disabled, PaletteRole.HighlightedText,
        QColor.fromName "#777777" 255⟩,
      ⟨ColorGroup.All, PaletteRole.Link, QColor.fromName "#77ccff" 255⟩,
      ⟨ColorGroup.All, PaletteRole.BrightText, QColor.qtRed⟩]⟩ :=
  apply_palette_day_noop_night_roles fullNightColors
    "#d7d7d7" "#4a90d9" "#1d1d1d" "#2f2f31" "#3a3a3a" "#777777" "#77ccff"
    (by decide) (by decide) (by decide) (by decide) (by decide) (by decide)
    (by decide)

end Theme
